import Mathlib

/-!
# Greetings widget: a shallow embedding of `script.js`

The script reads the page's query string into a plain object, validates it
against the static schema `CONFIG.params`, and then writes a greeting, a clock
string and a light/dark class into the page.

Modelling conventions.

* A plain JavaScript object is a list of its own entries in iteration order.
  Property reads (`obj[key]`) and the `in` operator also consult
  `Object.prototype`, as the language prescribes for object literals and for
  the result of `Object.fromEntries`; `JS.getProp` models this.
* A method that may throw returns a `Completion`, which carries the state
  reached at the point of the throw.
* Each evaluation of `new Date()` is an explicit `Date` argument.
* The page is the `html` element with the tree of nodes below it.
  `querySelector` returns the first matching element in tree order, an
  assignment to `textContent` or `innerHTML` replaces the children of that
  element (and so removes whatever was nested in it), and `document.body` is
  the first `body` or `frameset` child of the `html` element, if any.
-/

set_option autoImplicit false

namespace JS

/-- The property names an object literal inherits from `Object.prototype`. -/
def objectPrototypeKeys : List String :=
  ["constructor", "__defineGetter__", "__defineSetter__", "hasOwnProperty",
   "__lookupGetter__", "__lookupSetter__", "isPrototypeOf", "propertyIsEnumerable",
   "toString", "valueOf", "__proto__", "toLocaleString"]

/-- The JavaScript values the script manipulates.  `builtin k` is the function
(or, for `__proto__`, the object) found under key `k` of `Object.prototype`. -/
inductive Value where
  | undefined
  | string (s : String)
  | boolean (b : Bool)
  | builtin (key : String)
  deriving DecidableEq, Repr

/-- Outcome of the property read `obj[key]` on a plain object. -/
inductive Slot (α : Type) where
  | own (a : α)
  | inherited (key : String)
  | absent
  deriving Repr

/-- The read `obj[key]`: own entries first, then `Object.prototype`.  The
operator `key in obj` is false exactly when the outcome is `absent`. -/
def getProp {α : Type} (obj : List (String × α)) (key : String) : Slot α :=
  match obj.lookup key with
  | some a => .own a
  | none => if key ∈ objectPrototypeKeys then .inherited key else .absent

/-- The abstract operation ToString, as used by template literals, property
keys and `Array.prototype.join`.  A built-in function prints as its native
source text, whose spacing is engine-defined; no call site of the script
reaches those two cases. -/
def Value.toJSString : Value → String
  | .undefined => "undefined"
  | .string s => s
  | .boolean b => if b then "true" else "false"
  | .builtin "__proto__" => "[object Object]"
  | .builtin k => "function " ++ k ++ "() \x7b [native code] \x7d"

/-- The abstract operation ToBoolean. -/
def Value.truthy : Value → Bool
  | .undefined => false
  | .string s => s != ""
  | .boolean b => b
  | .builtin _ => true

/-- What a `throw` carries: an `Error` built by the script with the given
message, a `TypeError` raised by the engine, or a `DOMException` raised by the
page. -/
inductive Thrown where
  | error (message : String)
  | typeError
  | domException
  deriving DecidableEq, Repr

/-- Completion of a statement over state `σ`: it either finishes normally or
throws, and in both cases leaves a state behind. -/
inductive Completion (σ : Type) where
  | normal (s : σ)
  | throw (e : Thrown) (s : σ)
  deriving Repr

/-- The method `String.prototype.padStart(n, c)` for a one-character pad. -/
def padStart (s : String) (n : Nat) (c : Char) : String :=
  String.mk (List.replicate (n - s.length) c) ++ s

end JS

open JS

namespace DOM

/-- A list of sibling nodes, each given with the siblings that follow it.
`text` is a text node and `element` an element with its tag, class tokens and
children.  `markup html` stands for the nodes the parser builds from the string
`html` assigned to `innerHTML`; the script only assigns an `h1` of class `error`
holding text and a line break, so none of its selectors matches in there. -/
inductive Forest where
  | nil
  | text (data : String) (next : Forest)
  | markup (html : String) (next : Forest)
  | element (tag : String) (classes : List String) (children : Forest) (next : Forest)
  deriving DecidableEq, Repr

/-- An element as a selector returns it. -/
structure Element where
  tag : String
  classes : List String
  children : Forest
  deriving DecidableEq, Repr

/-- The first element, in tree order, that carries the class `cls`. -/
def Forest.find (cls : String) : Forest → Option Element
  | .nil => none
  | .text _ next => next.find cls
  | .markup _ next => next.find cls
  | .element tag classes children next =>
    if classes.contains cls then some ⟨tag, classes, children⟩
    else
      match children.find cls with
      | some e => some e
      | none => next.find cls

/-- Replace the children of the first element, in tree order, that carries the
class `cls` by `c`; `none` when no element carries it. -/
def Forest.replaceIn (cls : String) (c : Forest) : Forest → Option Forest
  | .nil => none
  | .text data next => (Forest.replaceIn cls c next).map (Forest.text data)
  | .markup html next => (Forest.replaceIn cls c next).map (Forest.markup html)
  | .element tag classes children next =>
    if classes.contains cls then some (.element tag classes c next)
    else
      match Forest.replaceIn cls c children with
      | some ch => some (.element tag classes ch next)
      | none => (Forest.replaceIn cls c next).map (Forest.element tag classes children)

/-- Among the nodes of the list itself, the first `body` or `frameset`
element. -/
def Forest.body : Forest → Option Element
  | .nil => none
  | .text _ next => next.body
  | .markup _ next => next.body
  | .element tag classes children next =>
    if tag = "body" ∨ tag = "frameset" then some ⟨tag, classes, children⟩ else next.body

/-- Give the class tokens `cs` to the element `Forest.body` finds. -/
def Forest.setBodyClasses (cs : List String) : Forest → Forest
  | .nil => .nil
  | .text data next => .text data (next.setBodyClasses cs)
  | .markup html next => .markup html (next.setBodyClasses cs)
  | .element tag classes children next =>
    if tag = "body" ∨ tag = "frameset" then .element tag cs children next
    else .element tag classes children (next.setBodyClasses cs)

/-- The document: its `html` element, given by class tokens and children. -/
structure Document where
  htmlClasses : List String
  children : Forest
  deriving DecidableEq, Repr

/-- The call `document.querySelector('.' + cls)`; class tokens are compared
exactly, as in a standards-mode document. -/
def Document.querySelector (d : Document) (cls : String) : Option Element :=
  if d.htmlClasses.contains cls then some ⟨"html", d.htmlClasses, d.children⟩
  else d.children.find cls

/-- Replace the children of the element `querySelector` returns for `cls` by
`c`; the document is unchanged when there is no such element. -/
def Document.replaceChildren (d : Document) (cls : String) (c : Forest) : Document :=
  if d.htmlClasses.contains cls then { d with children := c }
  else
    match Forest.replaceIn cls c d.children with
    | some ch => { d with children := ch }
    | none => d

/-- The getter `document.body`: the first `body` or `frameset` child of the
`html` element, `none` for `null`. -/
def Document.body (d : Document) : Option Element :=
  d.children.body

/-- The class tokens of `document.body`. -/
def Document.bodyClasses (d : Document) : Option (List String) :=
  d.body.map Element.classes

/-- Give the class tokens `cs` to `document.body`. -/
def Document.setBodyClasses (d : Document) (cs : List String) : Document :=
  { d with children := d.children.setBodyClasses cs }

/-- The children an assignment of `s` to `textContent` leaves: one text node,
or nothing for the empty string. -/
def textNodes (s : String) : Forest :=
  if s = "" then .nil else .text s .nil

/-- The children an assignment of `html` to `innerHTML` leaves. -/
def markupNodes (html : String) : Forest :=
  if html = "" then .nil else .markup html .nil

/-- ASCII whitespace, which a class token may not contain. -/
def isAsciiWhitespace (c : Char) : Bool :=
  c = '\t' || c = '\n' || c = '\x0c' || c = '\r' || c = ' '

/-- The call `classList.remove(...tokens)`. -/
def classListRemove (classes : List String) (tokens : List String) : List String :=
  classes.filter (fun c => !tokens.contains c)

/-- The call `classList.add(token)`: an empty token or one holding whitespace
is refused with a `DOMException`. -/
def classListAdd (classes : List String) (token : String) : Except Thrown (List String) :=
  if token = "" ∨ token.data.any isAsciiWhitespace then .error .domException
  else if classes.contains token then .ok classes
  else .ok (classes ++ [token])

end DOM

open DOM

/-- One entry of `CONFIG.params`: the optional `values` array and the
`default`. -/
structure ParamConfig where
  values : Option (List Value)
  default : Value
  deriving Repr

/-- One locale of `CONFIG.translations`. -/
structure Translation where
  morning : String
  afternoon : String
  evening : String
  error : String
  days : List String
  months : List String
  deriving Repr

/-- The read `t[period]` on a locale, for the keys `getPeriodOfDay` returns. -/
def Translation.phrase (t : Translation) (period : String) : Value :=
  if period = "morning" then .string t.morning
  else if period = "afternoon" then .string t.afternoon
  else if period = "evening" then .string t.evening
  else .undefined

namespace CONFIG

/-- The literal `CONFIG.params`. -/
def params : List (String × ParamConfig) :=
  [("name", { values := none, default := .string "" }),
   ("mode", { values := some [.string "light", .string "dark"], default := .string "dark" }),
   ("lang", { values := some [.string "en", .string "pt"], default := .string "en" }),
   ("hour", { values := some [.string "12", .string "24"], default := .string "24" }),
   ("holidays", { values := some [.boolean true, .boolean false], default := .boolean true })]

/-- The literal `CONFIG.translations.en`. -/
def en : Translation :=
  { morning := "Good Morning"
    afternoon := "Good Afternoon"
    evening := "Good Evening"
    error := "Error creating widget.<br/>Please generate a new link."
    days := ["Sunday", "Monday", "Tuesday", "Wednesday", "Thursday", "Friday", "Saturday"]
    months := ["January", "February", "March", "April", "May", "June", "July", "August",
               "September", "October", "November", "December"] }

/-- The literal `CONFIG.translations.pt`. -/
def pt : Translation :=
  { morning := "Bom Dia"
    afternoon := "Boa Tarde"
    evening := "Boa Noite"
    error := "Erro ao criar widget.<br/>Por favor, gere um novo link."
    days := ["Domingo", "Segunda-feira", "Terça-feira", "Quarta-feira", "Quinta-feira",
             "Sexta-feira", "Sábado"]
    months := ["Janeiro", "Fevereiro", "Março", "Abril", "Maio", "Junho", "Julho", "Agosto",
               "Setembro", "Outubro", "Novembro", "Dezembro"] }

/-- The literal `CONFIG.translations`. -/
def translations : List (String × Translation) :=
  [("en", en), ("pt", pt)]

end CONFIG

/-- The object `this.params`: the own entries of
`Object.fromEntries(new URLSearchParams(...))` in the order `Object.entries`
lists them.  Keys and values are strings; a read takes the first entry
with the key (the keys of an object are distinct, which no proof below needs). -/
abbrev Params := List (String × String)

namespace WidgetManager

/-- The call `config.values.join(', ')`. -/
def joinValues (vs : List Value) : String :=
  ", ".intercalate (vs.map Value.toJSString)

/-- Body of the loop of `validateParams` for one entry: `none` when the entry
passes, `some e` when it throws `e`. -/
def validateEntry (key value : String) : Option Thrown :=
  match getProp CONFIG.params key with
  | .absent =>
    -- `!(key in params)`
    some (.error ("Invalid parameter: " ++ key))
  | .own config =>
    match config.values with
    | some values =>
      if values.contains (.string value) then none
      else some (.error ("Invalid value for " ++ key ++ ": " ++ value ++
        ". Allowed values: " ++ joinValues values))
    | none => none
  | .inherited k =>
    -- `config` is a member of `Object.prototype`.  Only `Object` (found under
    -- `constructor`) has a property `values`: the function `Object.values`,
    -- which is truthy and has no method `includes`.
    if k = "constructor" then some .typeError else none

/-- The method `validateParams`: the first throwing entry ends the loop. -/
def validateParams : Params → Except Thrown Unit
  | [] => .ok ()
  | (key, value) :: rest =>
    match validateEntry key value with
    | some e => .error e
    | none => validateParams rest

/-- The method `parseValue`. -/
def parseValue (value : Value) (sample : Value) : Value :=
  match sample with
  | .boolean _ => .boolean (decide (value = .string "true"))
  | _ => value

/-- The read `this.params[key]`. -/
def rawParam (params : Params) (key : String) : Value :=
  match getProp params key with
  | .own s => .string s
  | .inherited k => .builtin k
  | .absent => .undefined

/-- The method `getParamValue`. -/
def getParamValue (params : Params) (key : String) : Value :=
  match getProp CONFIG.params key with
  | .absent => .undefined
  | .own config =>
    match rawParam params key with
    | .undefined => config.default
    | rawValue =>
      -- `config.values?.[0] ?? config.default`
      let first :=
        match config.values with
        | some (v :: _) => v
        | _ => .undefined
      let sample := if first = .undefined then config.default else first
      parseValue rawValue sample
  | .inherited _ =>
    -- `config` is a truthy member of `Object.prototype`; neither
    -- `config.values?.[0]` nor `config.default` is defined, so the sample is
    -- `undefined`, and `this.params[key]` is never `undefined` for such a key.
    parseValue (rawParam params key) .undefined

/-- One evaluation of `new Date()`, seen through the getters the script calls:
`getDay`, `getDate`, `getMonth`, `getFullYear`, `getHours`, `getMinutes`,
`getSeconds`. -/
structure Date where
  day : Nat
  date : Nat
  month : Nat
  fullYear : Int
  hours : Nat
  minutes : Nat
  seconds : Nat
  deriving DecidableEq, Repr

/-- The functions handed to `setInterval`. -/
inductive Callback where
  | updateDateTime
  | setGreetingMessage
  deriving DecidableEq, Repr

/-- One line written to the console. -/
inductive LogEntry where
  | warn (text : String)
  | error (text : String)
  | initFailed (e : Thrown)
  deriving DecidableEq, Repr

/-- The widget instance together with the browser state it acts on:
`timers` are the intervals registered so far (callback, delay in ms). -/
structure State where
  params : Params
  clockInterval : Option Nat
  greetingInterval : Option Nat
  document : Document
  timers : List (Callback × Nat)
  console : List LogEntry
  deriving DecidableEq, Repr

/-- The call `setInterval(cb, delay)`: registers the timer and returns its
handle, a positive integer. -/
def setInterval (s : State) (cb : Callback) (delay : Nat) : State × Nat :=
  ({ s with timers := s.timers ++ [(cb, delay)] }, s.timers.length + 1)

/-- The method `getPeriodOfDay`, on the reading `now` of the clock. -/
def getPeriodOfDay (now : Date) : String :=
  let hour := now.hours
  if hour ≥ 5 ∧ hour < 12 then "morning"
  else if hour ≥ 12 ∧ hour < 18 then "afternoon"
  else "evening"

/-- Assignment to `textContent`, a nullable string attribute: `undefined`
clears the node. -/
def textContentOf (v : Value) : String :=
  match v with
  | .undefined => ""
  | v => v.toJSString

/-- The method `setGreetingMessage`. -/
def setGreetingMessage (s : State) (now : Date) : Completion State :=
  match s.document.querySelector "greeting" with
  | none => .normal { s with console := s.console ++ [.warn "Greeting element not found"] }
  | some _ =>
    let name := getParamValue s.params "name"
    let lang := getParamValue s.params "lang"
    let period := getPeriodOfDay now
    let write (message : Value) : Completion State :=
      let text :=
        if name.truthy then message.toJSString ++ ", " ++ name.toJSString
        else textContentOf message
      .normal { s with document := s.document.replaceChildren "greeting" (textNodes text) }
    match getProp CONFIG.translations lang.toJSString with
    | .absent => .throw .typeError s
    | .own t => write (t.phrase period)
    | .inherited _ => write .undefined

/-- The method `formatTime`. -/
def formatTime (value : Nat) : String :=
  padStart (toString value) 2 '0'

/-- The object `getCurrentDateTime` returns. -/
structure DateTime where
  date : String
  time : String
  fullDateTime : String
  deriving DecidableEq, Repr

/-- An array element read `xs[i]` placed in a template literal. -/
def elementText (xs : List String) (i : Nat) : String :=
  match xs.get? i with
  | some x => x
  | none => "undefined"

/-- The method `getCurrentDateTime`. -/
def getCurrentDateTime (params : Params) (now : Date) : Except Thrown DateTime :=
  let lang := getParamValue params "lang"
  let hourFormat := getParamValue params "hour"
  let build (translations : Translation) : DateTime :=
    let dayName := elementText translations.days now.day
    let day := toString now.date
    let monthName := elementText translations.months now.month
    let year := toString now.fullYear
    let hours := now.hours
    let minutes := formatTime now.minutes
    let seconds := formatTime now.seconds
    let timeString :=
      if hourFormat = .string "12" then
        let ampm := if hours ≥ 12 then "PM" else "AM"
        let hours := if hours % 12 = 0 then 12 else hours % 12
        formatTime hours ++ ":" ++ minutes ++ ":" ++ seconds ++ " " ++ ampm
      else formatTime hours ++ ":" ++ minutes ++ ":" ++ seconds
    { date := dayName ++ ", " ++ day ++ " " ++ monthName ++ " " ++ year
      time := timeString
      fullDateTime :=
        dayName ++ ", " ++ day ++ " " ++ monthName ++ " " ++ year ++ " - " ++ timeString }
  match getProp CONFIG.translations lang.toJSString with
  | .own t => .ok (build t)
  | .absent => .ok (build CONFIG.en)
  | .inherited _ =>
    -- a member of `Object.prototype` is truthy and has no `days`
    .error .typeError

/-- The method `updateDateTime`. -/
def updateDateTime (s : State) (now : Date) : Completion State :=
  match s.document.querySelector "datetime" with
  | none => .normal { s with console := s.console ++ [.warn "DateTime element not found"] }
  | some _ =>
    match getCurrentDateTime s.params now with
    | .error e => .throw e s
    | .ok r =>
      .normal { s with
        document := s.document.replaceChildren "datetime" (textNodes r.fullDateTime) }

/-- The method `startClock`. -/
def startClock (s : State) (now : Date) : Completion State :=
  match updateDateTime s now with
  | .throw e s1 => .throw e s1
  | .normal s1 =>
    let (s2, id) := setInterval s1 .updateDateTime 1000
    .normal { s2 with clockInterval := some id }

/-- The method `startGreetingMessage`. -/
def startGreetingMessage (s : State) (now : Date) : Completion State :=
  match setGreetingMessage s now with
  | .throw e s1 => .throw e s1
  | .normal s1 =>
    let (s2, id) := setInterval s1 .setGreetingMessage (1000 * 60 * 60)
    .normal { s2 with greetingInterval := some id }

/-- The method `setMode`.  With `document.body` null the read of `classList`
throws a `TypeError`. -/
def setMode (s : State) : Completion State :=
  match s.document.body with
  | none => .throw .typeError s
  | some bodyElement =>
    let mode := getParamValue s.params "mode"
    let removed := classListRemove bodyElement.classes ["light", "dark"]
    let s1 : State := { s with document := s.document.setBodyClasses removed }
    match classListAdd removed mode.toJSString with
    | .error e => .throw e s1
    | .ok classes => .normal { s1 with document := s1.document.setBodyClasses classes }

/-- The method `showError`.  None of its statements can throw. -/
def showError (s : State) : Completion State :=
  match s.document.querySelector "container" with
  | none => .normal { s with console := s.console ++ [.error "Container element not found"] }
  | some _ =>
    let lang := getParamValue s.params "lang"
    -- `CONFIG.translations[lang]?.error || CONFIG.translations.en.error`
    let errorMessage :=
      match getProp CONFIG.translations lang.toJSString with
      | .own t => if t.error ≠ "" then t.error else CONFIG.en.error
      | _ => CONFIG.en.error
    .normal { s with
      document := s.document.replaceChildren "container"
        (markupNodes ("<h1 class=\"error\">" ++ errorMessage ++ "</h1>")) }

/-- The method `applySettings`; `tGreeting` and `tClock` are the clock readings
taken by the first greeting and the first clock render. -/
def applySettings (s : State) (tGreeting tClock : Date) : Completion State :=
  match startGreetingMessage s tGreeting with
  | .throw e s1 => .throw e s1
  | .normal s1 =>
    match setMode s1 with
    | .throw e s2 => .throw e s2
    | .normal s2 => startClock s2 tClock

/-- The `catch` block of `init`: log the failure, then show the error. -/
def onInitError (e : Thrown) (s : State) : Completion State :=
  showError { s with console := s.console ++ [.initFailed e] }

/-- The method `init`. -/
def init (s : State) (tGreeting tClock : Date) : Completion State :=
  match validateParams s.params with
  | .error e => onInitError e s
  | .ok () =>
    match applySettings s tGreeting tClock with
    | .throw e s1 => onInitError e s1
    | .normal s1 => .normal s1

end WidgetManager

open WidgetManager

/-! ## Specification-side definitions

These follow the wording of the specification and are what the code is compared
with. -/

/-- The five schema names. -/
def schemaKeys : List String := ["name", "mode", "lang", "hour", "holidays"]

/-- Two-digit zero-padded decimal: the tens digit followed by the units digit. -/
def pad2 (n : Nat) : String :=
  String.mk [Nat.digitChar (n / 10), Nat.digitChar (n % 10)]

/-- Hour of the 12-hour clock: 12 for hour 0, `h - 12` above 12, `h` otherwise. -/
def hour12 (h : Nat) : Nat :=
  if h = 0 then 12 else if h > 12 then h - 12 else h

/-- The AM/PM suffix: `AM` before noon, `PM` from noon on. -/
def ampmSuffix (h : Nat) : String :=
  if h < 12 then "AM" else "PM"

/-- The time string the specification prescribes for a resolved hour format. -/
def clockText (hourFormat : Value) (h m s : Nat) : String :=
  if hourFormat = .string "12" then
    pad2 (hour12 h) ++ ":" ++ pad2 m ++ ":" ++ pad2 s ++ " " ++ ampmSuffix h
  else pad2 h ++ ":" ++ pad2 m ++ ":" ++ pad2 s

/-- The greeting phrase of each locale and time-of-day bucket. -/
def greetingPhrase (lang period : String) : String :=
  if lang = "pt" then
    if period = "morning" then "Bom Dia"
    else if period = "afternoon" then "Boa Tarde"
    else "Boa Noite"
  else
    if period = "morning" then "Good Morning"
    else if period = "afternoon" then "Good Afternoon"
    else "Good Evening"

/-- The greeting text: the phrase, followed by a comma and the name when the
name is not empty. -/
def greetingText (lang period name : String) : String :=
  if name = "" then greetingPhrase lang period
  else greetingPhrase lang period ++ ", " ++ name

/-- The error string shown for a `lang` parameter: the Portuguese one for
`pt`, the English one in every other case. -/
def errorText (lang : Option String) : String :=
  if lang = some "pt" then "Erro ao criar widget.<br/>Por favor, gere um novo link."
  else "Error creating widget.<br/>Please generate a new link."

/-! ## Example pages -/

/-- A page whose container holds the greeting and the clock node:
`html > head, body.dark > div.container > (h1.greeting, h2.datetime)`. -/
def nestedPage : Document :=
  ⟨[], .element "head" [] .nil
    (.element "body" ["dark"]
      (.element "div" ["container"]
        (.element "h1" ["greeting"] (.text "Hi" .nil)
          (.element "h2" ["datetime"] (.text "now" .nil) .nil)) .nil) .nil)⟩

/-- A page whose greeting and clock node lie outside the container:
`html > head, body.dark > (h1.greeting, h2.datetime, div.container)`. -/
def flatPage : Document :=
  ⟨[], .element "head" [] .nil
    (.element "body" ["dark"]
      (.element "h1" ["greeting"] (.text "Hi" .nil)
        (.element "h2" ["datetime"] (.text "now" .nil)
          (.element "div" ["container"] (.text "old" .nil) .nil))) .nil)⟩

/-- A page without greeting node: `html > head, body.dark.wide > h2.datetime`. -/
def clockOnlyPage : Document :=
  ⟨[], .element "head" [] .nil
    (.element "body" ["dark", "wide"]
      (.element "h2" ["datetime"] (.text "now" .nil) .nil) .nil)⟩

/-- The page as a script placed in the head sees it, before the parser has
reached the body: `html > head`, with `document.body` null. -/
def headOnlyPage : Document :=
  ⟨[], .element "head" [] .nil .nil⟩

/-! ## Schema lookups -/

theorem lookup_cons_eq {α : Type} (k : String) (a : α) (rest : List (String × α)) :
    List.lookup k ((k, a) :: rest) = some a := by
  simp [List.lookup]

theorem lookup_cons_ne {α : Type} (k k1 : String) (a : α) (rest : List (String × α))
    (h : k ≠ k1) : List.lookup k ((k1, a) :: rest) = List.lookup k rest := by
  have : (k == k1) = false := by simpa using h
  simp [List.lookup, this]

theorem getProp_params_of_not_schema (key : String) (h : key ∉ schemaKeys) :
    getProp CONFIG.params key =
      if key ∈ objectPrototypeKeys then .inherited key else .absent := by
  simp only [schemaKeys, List.mem_cons, List.mem_singleton, not_or, List.mem_nil_iff,
    or_false] at h
  obtain ⟨h1, h2, h3, h4, h5⟩ := h
  unfold getProp CONFIG.params
  rw [lookup_cons_ne _ _ _ _ h1, lookup_cons_ne _ _ _ _ h2, lookup_cons_ne _ _ _ _ h3,
    lookup_cons_ne _ _ _ _ h4, lookup_cons_ne _ _ _ _ h5]
  rfl

theorem validateEntry_of_unknown (key value : String) (h : key ∉ schemaKeys)
    (hp : key ∉ objectPrototypeKeys) :
    validateEntry key value = some (.error ("Invalid parameter: " ++ key)) := by
  unfold validateEntry
  rw [getProp_params_of_not_schema key h, if_neg hp]

theorem validateEntry_name (v : String) : validateEntry "name" v = none := by
  unfold validateEntry getProp CONFIG.params
  rw [lookup_cons_eq]

theorem validateEntry_mode (v : String) :
    validateEntry "mode" v = none ↔ v = "light" ∨ v = "dark" := by
  unfold validateEntry getProp CONFIG.params
  rw [lookup_cons_ne _ _ _ _ (by decide), lookup_cons_eq]
  simp
  tauto

theorem validateEntry_lang (v : String) :
    validateEntry "lang" v = none ↔ v = "en" ∨ v = "pt" := by
  unfold validateEntry getProp CONFIG.params
  rw [lookup_cons_ne _ _ _ _ (by decide), lookup_cons_ne _ _ _ _ (by decide), lookup_cons_eq]
  simp
  tauto

theorem validateEntry_hour (v : String) :
    validateEntry "hour" v = none ↔ v = "12" ∨ v = "24" := by
  unfold validateEntry getProp CONFIG.params
  rw [lookup_cons_ne _ _ _ _ (by decide), lookup_cons_ne _ _ _ _ (by decide),
    lookup_cons_ne _ _ _ _ (by decide), lookup_cons_eq]
  simp
  tauto

theorem validateEntry_holidays (v : String) :
    validateEntry "holidays" v =
      some (.error ("Invalid value for holidays: " ++ v ++ ". Allowed values: " ++
        "true, false")) := by
  unfold validateEntry getProp CONFIG.params
  rw [lookup_cons_ne _ _ _ _ (by decide), lookup_cons_ne _ _ _ _ (by decide),
    lookup_cons_ne _ _ _ _ (by decide), lookup_cons_ne _ _ _ _ (by decide), lookup_cons_eq]
  have hj : joinValues [.boolean true, .boolean false] = "true, false" := by rfl
  simp [hj]

theorem validateParams_ok_iff (ps : Params) :
    validateParams ps = .ok () ↔ ∀ kv ∈ ps, validateEntry kv.1 kv.2 = none := by
  induction ps with
  | nil => simp [validateParams]
  | cons kv rest ih =>
    obtain ⟨k, v⟩ := kv
    unfold validateParams
    cases h : validateEntry k v with
    | none => simp [h, ih]
    | some e => simp [h]

theorem validateParams_first_violation (pre post : Params) (k v : String) (e : Thrown)
    (hpre : ∀ kv ∈ pre, validateEntry kv.1 kv.2 = none) (hk : validateEntry k v = some e) :
    validateParams (pre ++ (k, v) :: post) = .error e := by
  induction pre with
  | nil => simp [validateParams, hk]
  | cons kv rest ih =>
    obtain ⟨k1, v1⟩ := kv
    have h1 : validateEntry k1 v1 = none := hpre (k1, v1) (by simp)
    have h2 : ∀ kv ∈ rest, validateEntry kv.1 kv.2 = none :=
      fun kv hkv => hpre kv (by simp [hkv])
    simp only [List.cons_append, validateParams, h1]
    exact ih h2

theorem mem_of_lookup_eq_some {α : Type} (k : String) (a : α) (xs : List (String × α))
    (h : xs.lookup k = some a) : (k, a) ∈ xs := by
  induction xs with
  | nil => simp at h
  | cons kv rest ih =>
    obtain ⟨k1, a1⟩ := kv
    by_cases hk : k = k1
    · subst hk
      rw [lookup_cons_eq] at h
      simp at h
      simp [h]
    · rw [lookup_cons_ne _ _ _ _ hk] at h
      simp [ih h]

theorem validateEntry_of_lookup (ps : Params) (k v : String)
    (hv : validateParams ps = .ok ()) (h : ps.lookup k = some v) :
    validateEntry k v = none :=
  (validateParams_ok_iff ps).1 hv (k, v) (mem_of_lookup_eq_some k v ps h)

/-! ## Resolved values of the schema keys -/

theorem rawParam_of_not_inherited (ps : Params) (key : String)
    (h : key ∉ objectPrototypeKeys) :
    rawParam ps key = match ps.lookup key with
      | some v => .string v
      | none => .undefined := by
  unfold rawParam getProp
  cases ps.lookup key with
  | none => simp [h]
  | some v => simp

theorem getParamValue_name (ps : Params) :
    getParamValue ps "name" = .string ((ps.lookup "name").getD "") := by
  unfold getParamValue getProp CONFIG.params
  rw [lookup_cons_eq, rawParam_of_not_inherited ps "name" (by decide)]
  cases ps.lookup "name" <;> simp [parseValue]

theorem getParamValue_mode (ps : Params) :
    getParamValue ps "mode" = .string ((ps.lookup "mode").getD "dark") := by
  unfold getParamValue getProp CONFIG.params
  rw [lookup_cons_ne _ _ _ _ (by decide), lookup_cons_eq,
    rawParam_of_not_inherited ps "mode" (by decide)]
  cases ps.lookup "mode" <;> simp [parseValue]

theorem getParamValue_lang (ps : Params) :
    getParamValue ps "lang" = .string ((ps.lookup "lang").getD "en") := by
  unfold getParamValue getProp CONFIG.params
  rw [lookup_cons_ne _ _ _ _ (by decide), lookup_cons_ne _ _ _ _ (by decide), lookup_cons_eq,
    rawParam_of_not_inherited ps "lang" (by decide)]
  cases ps.lookup "lang" <;> simp [parseValue]

theorem getParamValue_hour (ps : Params) :
    getParamValue ps "hour" = .string ((ps.lookup "hour").getD "24") := by
  unfold getParamValue getProp CONFIG.params
  rw [lookup_cons_ne _ _ _ _ (by decide), lookup_cons_ne _ _ _ _ (by decide),
    lookup_cons_ne _ _ _ _ (by decide), lookup_cons_eq,
    rawParam_of_not_inherited ps "hour" (by decide)]
  cases ps.lookup "hour" <;> simp [parseValue]

theorem getParamValue_holidays (ps : Params) :
    getParamValue ps "holidays" = match ps.lookup "holidays" with
      | some v => .boolean (decide (v = "true"))
      | none => .boolean true := by
  unfold getParamValue getProp CONFIG.params
  rw [lookup_cons_ne _ _ _ _ (by decide), lookup_cons_ne _ _ _ _ (by decide),
    lookup_cons_ne _ _ _ _ (by decide), lookup_cons_ne _ _ _ _ (by decide), lookup_cons_eq,
    rawParam_of_not_inherited ps "holidays" (by decide)]
  cases ps.lookup "holidays" <;> simp [parseValue]

theorem getParamValue_of_unknown (ps : Params) (key : String) (h : key ∉ schemaKeys)
    (hp : key ∉ objectPrototypeKeys) : getParamValue ps key = .undefined := by
  unfold getParamValue
  rw [getProp_params_of_not_schema key h, if_neg hp]

theorem validated_lang (ps : Params) (hv : validateParams ps = .ok ()) :
    getParamValue ps "lang" = .string "en" ∨ getParamValue ps "lang" = .string "pt" := by
  rw [getParamValue_lang]
  cases h : ps.lookup "lang" with
  | none => simp
  | some v =>
    rcases (validateEntry_lang v).1 (validateEntry_of_lookup ps "lang" v hv h) with h1 | h1 <;>
      simp [h1]

theorem validated_mode (ps : Params) (hv : validateParams ps = .ok ()) :
    getParamValue ps "mode" = .string "light" ∨ getParamValue ps "mode" = .string "dark" := by
  rw [getParamValue_mode]
  cases h : ps.lookup "mode" with
  | none => simp
  | some v =>
    rcases (validateEntry_mode v).1 (validateEntry_of_lookup ps "mode" v hv h) with h1 | h1 <;>
      simp [h1]

/-! ## Parameter validation -/

/-- A key that is neither a schema name nor inherited from `Object.prototype`
makes `validateParams` throw, whatever else the mapping holds. -/
theorem validateParams_throws_of_unknown_key (ps : Params) (k v : String)
    (hmem : (k, v) ∈ ps) (h : k ∉ schemaKeys) (hp : k ∉ objectPrototypeKeys) :
    ∃ e, validateParams ps = .error e := by
  cases hr : validateParams ps with
  | error e => exact ⟨e, rfl⟩
  | ok u =>
    have h1 := (validateParams_ok_iff ps).1 hr (k, v) hmem
    rw [validateEntry_of_unknown k v h hp] at h1
    simp at h1

/-- When the first throwing entry has a key that is neither a schema name nor
inherited from `Object.prototype`, the message is `Invalid parameter: ` followed
by the key. -/
theorem validateParams_message_of_unknown_key (pre post : Params) (k v : String)
    (hpre : ∀ kv ∈ pre, validateEntry kv.1 kv.2 = none)
    (h : k ∉ schemaKeys) (hp : k ∉ objectPrototypeKeys) :
    validateParams (pre ++ (k, v) :: post) = .error (.error ("Invalid parameter: " ++ k)) :=
  validateParams_first_violation pre post k v _ hpre (validateEntry_of_unknown k v h hp)

/-- C1, evaluated on the code: the key `toString` is outside the five schema
names, yet the mapping holding only `toString=x` passes `validateParams`, because
`key in params` also finds the members of `Object.prototype`; and the key
`constructor` makes it throw a `TypeError` instead of the `Invalid parameter`
error. -/
theorem validateParams_inherited_key :
    "toString" ∉ schemaKeys ∧ validateParams [("toString", "x")] = .ok () ∧
    "constructor" ∉ schemaKeys ∧
    validateParams [("constructor", "x")] = .error .typeError := by
  refine ⟨by decide, by rfl, by decide, by rfl⟩

/-- C2: for each of `mode`, `lang` and `hour`, the mapping holding only that
parameter with value `v` passes `validateParams` exactly when `v` is one of the
parameter's allowed values; `mode=purple` fails and `mode=light` passes. -/
theorem validateParams_enumerated_iff (v : String) :
    (validateParams [("mode", v)] = .ok () ↔ v = "light" ∨ v = "dark") ∧
    (validateParams [("lang", v)] = .ok () ↔ v = "en" ∨ v = "pt") ∧
    (validateParams [("hour", v)] = .ok () ↔ v = "12" ∨ v = "24") ∧
    validateParams [("mode", "purple")] =
      .error (.error "Invalid value for mode: purple. Allowed values: light, dark") ∧
    validateParams [("mode", "light")] = .ok () := by
  refine ⟨?_, ?_, ?_, by rfl, by rfl⟩
  · rw [validateParams_ok_iff]
    simpa using validateEntry_mode v
  · rw [validateParams_ok_iff]
    simpa using validateEntry_lang v
  · rw [validateParams_ok_iff]
    simpa using validateEntry_hour v

/-- No value of `holidays` passes `validateParams`: the allowed values are the
booleans `true` and `false`, and a parsed value is always a string. -/
theorem validateParams_holidays_never_ok (v : String) :
    validateParams [("holidays", v)] =
      .error (.error ("Invalid value for holidays: " ++ v ++ ". Allowed values: " ++
        "true, false")) := by
  simp [validateParams, validateEntry_holidays]

/-- C3, evaluated on the code: `holidays=true` and `holidays=false` are both
rejected by `validateParams`, although the claim has them pass. -/
theorem validateParams_holidays_true_rejected :
    validateParams [("holidays", "true")] =
      .error (.error "Invalid value for holidays: true. Allowed values: true, false") ∧
    validateParams [("holidays", "false")] =
      .error (.error "Invalid value for holidays: false. Allowed values: true, false") := by
  refine ⟨by rfl, by rfl⟩

/-! ## Value resolution -/

/-- On every mapping, the resolved value of a schema key is the default when the
key is absent, the raw string for `name`, `mode`, `lang` and `hour`, and for
`holidays` the boolean telling whether the raw string is `true`; a key that is
neither a schema name nor inherited from `Object.prototype` resolves to
`undefined`. -/
theorem getParamValue_resolved (ps : Params) :
    (∀ key, key ∉ schemaKeys → key ∉ objectPrototypeKeys →
      getParamValue ps key = .undefined) ∧
    (ps.lookup "name" = none → getParamValue ps "name" = .string "") ∧
    (ps.lookup "mode" = none → getParamValue ps "mode" = .string "dark") ∧
    (ps.lookup "lang" = none → getParamValue ps "lang" = .string "en") ∧
    (ps.lookup "hour" = none → getParamValue ps "hour" = .string "24") ∧
    (ps.lookup "holidays" = none → getParamValue ps "holidays" = .boolean true) ∧
    (∀ v, ps.lookup "name" = some v → getParamValue ps "name" = .string v) ∧
    (∀ v, ps.lookup "mode" = some v → getParamValue ps "mode" = .string v) ∧
    (∀ v, ps.lookup "lang" = some v → getParamValue ps "lang" = .string v) ∧
    (∀ v, ps.lookup "hour" = some v → getParamValue ps "hour" = .string v) ∧
    (∀ v, ps.lookup "holidays" = some v →
      getParamValue ps "holidays" = .boolean (decide (v = "true"))) := by
  refine ⟨fun key h hp => getParamValue_of_unknown ps key h hp, ?_, ?_, ?_, ?_, ?_,
    ?_, ?_, ?_, ?_, ?_⟩
  · intro h; rw [getParamValue_name, h]; rfl
  · intro h; rw [getParamValue_mode, h]; rfl
  · intro h; rw [getParamValue_lang, h]; rfl
  · intro h; rw [getParamValue_hour, h]; rfl
  · intro h; rw [getParamValue_holidays, h]
  · intro v h; rw [getParamValue_name, h]; rfl
  · intro v h; rw [getParamValue_mode, h]; rfl
  · intro v h; rw [getParamValue_lang, h]; rfl
  · intro v h; rw [getParamValue_hour, h]; rfl
  · intro v h; rw [getParamValue_holidays, h]

/-- C4, evaluated on the code: the key `toString` has no schema entry, yet on
the empty mapping `getParamValue` returns the function inherited from
`Object.prototype` instead of `undefined`, because `CONFIG.params[key]` is
truthy for every member of `Object.prototype`. -/
theorem getParamValue_inherited_key :
    "toString" ∉ schemaKeys ∧ getParamValue [] "toString" = .builtin "toString" ∧
    getParamValue [] "toString" ≠ .undefined := by
  refine ⟨by decide, by rfl, by decide⟩

/-! ## Clock text -/

theorem formatTime_eq_pad2 : ∀ n, n < 100 → formatTime n = pad2 n := by
  decide

theorem hour12_eq (h : Nat) (hh : h < 24) :
    (if h % 12 = 0 then 12 else h % 12) = hour12 h := by
  unfold hour12
  split_ifs <;> omega

theorem getCurrentDateTime_time_eq (params : Params) (now : Date) (r : DateTime)
    (h : getCurrentDateTime params now = .ok r) :
    r.time =
      if getParamValue params "hour" = .string "12" then
        formatTime (if now.hours % 12 = 0 then 12 else now.hours % 12) ++ ":" ++
          formatTime now.minutes ++ ":" ++ formatTime now.seconds ++ " " ++
          (if now.hours ≥ 12 then "PM" else "AM")
      else formatTime now.hours ++ ":" ++ formatTime now.minutes ++ ":" ++
        formatTime now.seconds := by
  unfold getCurrentDateTime at h
  simp only [] at h
  split at h
  · injection h with h; rw [← h]
  · injection h with h; rw [← h]
  · exact absurd h (by simp)

theorem getProp_translations_en : getProp CONFIG.translations "en" = .own CONFIG.en := by
  rfl

theorem getProp_translations_pt : getProp CONFIG.translations "pt" = .own CONFIG.pt := by
  rfl

theorem getCurrentDateTime_ok_of_valid (params : Params) (now : Date)
    (hv : validateParams params = .ok ()) : ∃ r, getCurrentDateTime params now = .ok r := by
  unfold getCurrentDateTime
  simp only []
  rcases validated_lang params hv with h | h <;> rw [h]
  · simp only [Value.toJSString, getProp_translations_en]
    exact ⟨_, rfl⟩
  · simp only [Value.toJSString, getProp_translations_pt]
    exact ⟨_, rfl⟩

/-- C5: for a clock reading with hour below 24 and minute and second below 60,
`getCurrentDateTime` returns on every validated mapping, and the time string of
whatever it returns is the one prescribed for the resolved hour format: in
format `12` the padded 12-hour value (between 1 and 12), minutes and seconds and
the AM/PM suffix, otherwise the padded 24-hour value, minutes and seconds. -/
theorem getCurrentDateTime_time (params : Params) (now : Date)
    (hh : now.hours < 24) (hm : now.minutes < 60) (hs : now.seconds < 60) :
    (validateParams params = .ok () → ∃ r, getCurrentDateTime params now = .ok r) ∧
    (∀ r, getCurrentDateTime params now = .ok r →
      r.time = clockText (getParamValue params "hour") now.hours now.minutes now.seconds) ∧
    1 ≤ hour12 now.hours ∧ hour12 now.hours ≤ 12 := by
  refine ⟨getCurrentDateTime_ok_of_valid params now, ?_, ?_, ?_⟩
  · intro r hr
    rw [getCurrentDateTime_time_eq params now r hr, hour12_eq now.hours hh]
    have h12 : hour12 now.hours < 100 := by unfold hour12; split_ifs <;> omega
    rw [formatTime_eq_pad2 _ h12, formatTime_eq_pad2 _ (by omega : now.hours < 100),
      formatTime_eq_pad2 _ (by omega : now.minutes < 100),
      formatTime_eq_pad2 _ (by omega : now.seconds < 100)]
    unfold clockText ampmSuffix
    by_cases hf : getParamValue params "hour" = .string "12"
    · by_cases h12 : now.hours < 12
      · have : ¬ now.hours ≥ 12 := by omega
        simp [hf, h12, this]
      · have : now.hours ≥ 12 := by omega
        simp [hf, h12, this]
    · simp [hf]
  · unfold hour12; split_ifs <;> omega
  · unfold hour12; split_ifs <;> omega

/-- Witness of C5 at the readings of the specification: 00:05:09 and 13:00:00 in
12-hour format, 13:00:00 in 24-hour format and under the default. -/
theorem getCurrentDateTime_time_witness :
    (∃ r, getCurrentDateTime [("hour", "12")] ⟨0, 1, 0, 2024, 0, 5, 9⟩ = .ok r ∧
      r.time = "12:05:09 AM") ∧
    (∃ r, getCurrentDateTime [("hour", "12")] ⟨0, 1, 0, 2024, 13, 0, 0⟩ = .ok r ∧
      r.time = "01:00:00 PM") ∧
    (∃ r, getCurrentDateTime [("hour", "24")] ⟨0, 1, 0, 2024, 13, 0, 0⟩ = .ok r ∧
      r.time = "13:00:00") ∧
    (∃ r, getCurrentDateTime [] ⟨0, 1, 0, 2024, 13, 0, 0⟩ = .ok r ∧
      r.time = "13:00:00") := by
  refine ⟨?_, ?_, ?_, ?_⟩
  · have h := getCurrentDateTime_time [("hour", "12")] ⟨0, 1, 0, 2024, 0, 5, 9⟩
      (by decide) (by decide) (by decide)
    obtain ⟨r, hr⟩ := h.1 (by rfl)
    exact ⟨r, hr, (h.2.1 r hr).trans (by rfl)⟩
  · have h := getCurrentDateTime_time [("hour", "12")] ⟨0, 1, 0, 2024, 13, 0, 0⟩
      (by decide) (by decide) (by decide)
    obtain ⟨r, hr⟩ := h.1 (by rfl)
    exact ⟨r, hr, (h.2.1 r hr).trans (by rfl)⟩
  · have h := getCurrentDateTime_time [("hour", "24")] ⟨0, 1, 0, 2024, 13, 0, 0⟩
      (by decide) (by decide) (by decide)
    obtain ⟨r, hr⟩ := h.1 (by rfl)
    exact ⟨r, hr, (h.2.1 r hr).trans (by rfl)⟩
  · have h := getCurrentDateTime_time [] ⟨0, 1, 0, 2024, 13, 0, 0⟩
      (by decide) (by decide) (by decide)
    obtain ⟨r, hr⟩ := h.1 (by rfl)
    exact ⟨r, hr, (h.2.1 r hr).trans (by rfl)⟩

/-! ## Time-of-day bucket -/

theorem getPeriodOfDay_iff (now : Date) :
    (getPeriodOfDay now = "morning" ↔ 5 ≤ now.hours ∧ now.hours < 12) ∧
    (getPeriodOfDay now = "afternoon" ↔ 12 ≤ now.hours ∧ now.hours < 18) ∧
    (getPeriodOfDay now = "evening" ↔ now.hours < 5 ∨ 18 ≤ now.hours) ∧
    (getPeriodOfDay now = "morning" ∨ getPeriodOfDay now = "afternoon" ∨
      getPeriodOfDay now = "evening") := by
  unfold getPeriodOfDay
  simp only []
  by_cases h1 : now.hours ≥ 5 ∧ now.hours < 12
  · rw [if_pos h1]
    refine ⟨?_, ?_, ?_, ?_⟩
    · simp; omega
    · simp; omega
    · simp; omega
    · simp
  · rw [if_neg h1]
    by_cases h2 : now.hours ≥ 12 ∧ now.hours < 18
    · rw [if_pos h2]
      refine ⟨?_, ?_, ?_, ?_⟩
      · simp; omega
      · simp; omega
      · simp; omega
      · simp
    · rw [if_neg h2]
      refine ⟨?_, ?_, ?_, ?_⟩
      · simp; omega
      · simp; omega
      · simp; omega
      · simp

/-- C6: `getPeriodOfDay` returns `morning` exactly for hours 5 to 11,
`afternoon` exactly for hours 12 to 17 and `evening` exactly for the other
hours, so each hour has exactly one bucket. -/
theorem getPeriodOfDay_buckets (now : Date) :
    (getPeriodOfDay now = "morning" ↔ 5 ≤ now.hours ∧ now.hours < 12) ∧
    (getPeriodOfDay now = "afternoon" ↔ 12 ≤ now.hours ∧ now.hours < 18) ∧
    (getPeriodOfDay now = "evening" ↔ now.hours < 5 ∨ 18 ≤ now.hours) ∧
    (getPeriodOfDay now = "morning" ∨ getPeriodOfDay now = "afternoon" ∨
      getPeriodOfDay now = "evening") :=
  getPeriodOfDay_iff now


/-! ## The page -/

theorem replaceIn_eq_none (cls : String) (c : Forest) :
    ∀ F : Forest, F.find cls = none → Forest.replaceIn cls c F = none := by
  intro F
  induction F with
  | nil => intro _; rfl
  | text data next ih =>
    intro h
    simp only [Forest.find] at h
    simp [Forest.replaceIn, ih h]
  | markup html next ih =>
    intro h
    simp only [Forest.find] at h
    simp [Forest.replaceIn, ih h]
  | element tag classes children next ihc ihn =>
    intro h
    unfold Forest.find at h
    by_cases hc : classes.contains cls = true
    · rw [if_pos hc] at h
      exact absurd h (by simp)
    · rw [if_neg hc] at h
      cases hch : children.find cls with
      | some e => rw [hch] at h; exact absurd h (by simp)
      | none =>
        rw [hch] at h
        unfold Forest.replaceIn
        rw [if_neg hc, ihc hch]
        simp [ihn h]

theorem find_replaceIn (cls : String) (c : Forest) :
    ∀ (F : Forest) (e : Element), F.find cls = some e →
      ∃ F2, Forest.replaceIn cls c F = some F2 ∧
        F2.find cls = some { e with children := c } := by
  intro F
  induction F with
  | nil => intro e h; exact absurd h (by simp [Forest.find])
  | text data next ih =>
    intro e h
    simp only [Forest.find] at h
    obtain ⟨F2, h1, h2⟩ := ih e h
    exact ⟨.text data F2, by simp [Forest.replaceIn, h1], by simpa [Forest.find] using h2⟩
  | markup html next ih =>
    intro e h
    simp only [Forest.find] at h
    obtain ⟨F2, h1, h2⟩ := ih e h
    exact ⟨.markup html F2, by simp [Forest.replaceIn, h1], by simpa [Forest.find] using h2⟩
  | element tag classes children next ihc ihn =>
    intro e h
    unfold Forest.find at h
    by_cases hc : classes.contains cls = true
    · rw [if_pos hc] at h
      injection h with h
      subst h
      refine ⟨.element tag classes c next, ?_, ?_⟩
      · unfold Forest.replaceIn; rw [if_pos hc]
      · unfold Forest.find; rw [if_pos hc]
    · rw [if_neg hc] at h
      cases hch : children.find cls with
      | some e1 =>
        rw [hch] at h
        injection h with h
        subst h
        obtain ⟨ch2, h1, h2⟩ := ihc e1 hch
        refine ⟨.element tag classes ch2 next, ?_, ?_⟩
        · unfold Forest.replaceIn; rw [if_neg hc, h1]
        · unfold Forest.find; rw [if_neg hc, h2]
      | none =>
        rw [hch] at h
        obtain ⟨n2, h1, h2⟩ := ihn e h
        refine ⟨.element tag classes children n2, ?_, ?_⟩
        · unfold Forest.replaceIn
          rw [if_neg hc, replaceIn_eq_none cls c children hch, h1]
          rfl
        · unfold Forest.find; rw [if_neg hc, hch, h2]

theorem body_replaceIn (cls : String) (c : Forest) :
    ∀ F F2 : Forest, Forest.replaceIn cls c F = some F2 →
      F2.body.map Element.classes = F.body.map Element.classes := by
  intro F
  induction F with
  | nil => intro F2 h; exact absurd h (by simp [Forest.replaceIn])
  | text data next ih =>
    intro F2 h
    simp only [Forest.replaceIn, Option.map_eq_some'] at h
    obtain ⟨n2, h1, h2⟩ := h
    subst h2
    simpa [Forest.body] using ih n2 h1
  | markup html next ih =>
    intro F2 h
    simp only [Forest.replaceIn, Option.map_eq_some'] at h
    obtain ⟨n2, h1, h2⟩ := h
    subst h2
    simpa [Forest.body] using ih n2 h1
  | element tag classes children next _ ihn =>
    intro F2 h
    unfold Forest.replaceIn at h
    by_cases hc : classes.contains cls = true
    · rw [if_pos hc] at h
      injection h with h
      subst h
      unfold Forest.body
      split_ifs <;> rfl
    · rw [if_neg hc] at h
      cases hch : Forest.replaceIn cls c children with
      | some ch2 =>
        rw [hch] at h
        injection h with h
        subst h
        unfold Forest.body
        split_ifs <;> rfl
      | none =>
        rw [hch] at h
        simp only [Option.map_eq_some'] at h
        obtain ⟨n2, h1, h2⟩ := h
        subst h2
        unfold Forest.body
        split_ifs
        · rfl
        · exact ihn n2 h1

theorem body_setBodyClasses (cs : List String) :
    ∀ (F : Forest) (b : Element), F.body = some b →
      (F.setBodyClasses cs).body = some { b with classes := cs } := by
  intro F
  induction F with
  | nil => intro b h; exact absurd h (by simp [Forest.body])
  | text data next ih =>
    intro b h
    simp only [Forest.body] at h
    simpa [Forest.setBodyClasses, Forest.body] using ih b h
  | markup html next ih =>
    intro b h
    simp only [Forest.body] at h
    simpa [Forest.setBodyClasses, Forest.body] using ih b h
  | element tag classes children next _ ihn =>
    intro b h
    unfold Forest.body at h
    unfold Forest.setBodyClasses
    by_cases ht : tag = "body" ∨ tag = "frameset"
    · rw [if_pos ht] at h
      injection h with h
      subst h
      rw [if_pos ht]
      unfold Forest.body
      rw [if_pos ht]
    · rw [if_neg ht] at h
      rw [if_neg ht]
      unfold Forest.body
      rw [if_neg ht]
      exact ihn b h

theorem setBodyClasses_twice (a b : List String) :
    ∀ F : Forest, (F.setBodyClasses a).setBodyClasses b = F.setBodyClasses b := by
  intro F
  induction F with
  | nil => rfl
  | text data next ih => simp [Forest.setBodyClasses, ih]
  | markup html next ih => simp [Forest.setBodyClasses, ih]
  | element tag classes children next _ ihn =>
    by_cases ht : tag = "body" ∨ tag = "frameset"
    · simp [Forest.setBodyClasses, ht]
    · simp [Forest.setBodyClasses, ht, ihn]

theorem find_setBodyClasses_isSome (cls : String) (cs : List String) :
    ∀ (F : Forest) (b : Element), F.body = some b →
      b.classes.contains cls = cs.contains cls →
      ((F.setBodyClasses cs).find cls).isSome = (F.find cls).isSome := by
  intro F
  induction F with
  | nil => intro b h; exact absurd h (by simp [Forest.body])
  | text data next ih =>
    intro b h hcs
    simp only [Forest.body] at h
    simpa [Forest.setBodyClasses, Forest.find] using ih b h hcs
  | markup html next ih =>
    intro b h hcs
    simp only [Forest.body] at h
    simpa [Forest.setBodyClasses, Forest.find] using ih b h hcs
  | element tag classes children next _ ihn =>
    intro b h hcs
    unfold Forest.body at h
    unfold Forest.setBodyClasses
    by_cases ht : tag = "body" ∨ tag = "frameset"
    · rw [if_pos ht] at h
      injection h with h
      subst h
      rw [if_pos ht]
      simp only [] at hcs
      unfold Forest.find
      rw [← hcs]
      by_cases hc : classes.contains cls = true
      · rw [if_pos hc, if_pos hc]; rfl
      · rw [if_neg hc, if_neg hc]
    · rw [if_neg ht] at h
      rw [if_neg ht]
      unfold Forest.find
      by_cases hc : classes.contains cls = true
      · rw [if_pos hc, if_pos hc]
      · rw [if_neg hc, if_neg hc]
        cases children.find cls with
        | some e => rfl
        | none => exact ihn b h hcs

theorem querySelector_replaceChildren (d : Document) (cls : String) (c : Forest) (e : Element)
    (h : d.querySelector cls = some e) :
    (d.replaceChildren cls c).querySelector cls = some { e with children := c } := by
  unfold Document.querySelector at h
  unfold Document.replaceChildren
  by_cases hc : d.htmlClasses.contains cls = true
  · rw [if_pos hc] at h
    injection h with h
    subst h
    rw [if_pos hc]
    unfold Document.querySelector
    simp only []
    rw [if_pos hc]
  · rw [if_neg hc] at h
    rw [if_neg hc]
    obtain ⟨F2, h1, h2⟩ := find_replaceIn cls c d.children e h
    rw [h1]
    unfold Document.querySelector
    simp only []
    rw [if_neg hc, h2]

theorem replaceChildren_of_none (d : Document) (cls : String) (c : Forest)
    (h : d.querySelector cls = none) : d.replaceChildren cls c = d := by
  unfold Document.querySelector at h
  unfold Document.replaceChildren
  by_cases hc : d.htmlClasses.contains cls = true
  · rw [if_pos hc] at h
    exact absurd h (by simp)
  · rw [if_neg hc] at h
    rw [if_neg hc, replaceIn_eq_none cls c d.children h]

theorem bodyClasses_replaceChildren (d : Document) (cls : String) (c : Forest)
    (h : d.htmlClasses.contains cls = false) :
    (d.replaceChildren cls c).bodyClasses = d.bodyClasses := by
  unfold Document.replaceChildren
  rw [if_neg (by rw [h]; decide)]
  cases hr : Forest.replaceIn cls c d.children with
  | none => rfl
  | some F2 => exact body_replaceIn cls c d.children F2 hr

theorem bodyClasses_setBodyClasses (d : Document) (cs : List String) (b : Element)
    (h : d.body = some b) : (d.setBodyClasses cs).bodyClasses = some cs := by
  unfold Document.bodyClasses Document.body Document.setBodyClasses
  simp only []
  rw [body_setBodyClasses cs d.children b h]
  rfl

theorem document_setBodyClasses_twice (d : Document) (a b : List String) :
    (d.setBodyClasses a).setBodyClasses b = d.setBodyClasses b := by
  unfold Document.setBodyClasses
  simp only [setBodyClasses_twice]

theorem querySelector_setBodyClasses_isSome (d : Document) (cls : String) (cs : List String)
    (b : Element) (hb : d.body = some b) (hcs : b.classes.contains cls = cs.contains cls) :
    ((d.setBodyClasses cs).querySelector cls).isSome = (d.querySelector cls).isSome := by
  unfold Document.querySelector Document.setBodyClasses
  simp only []
  by_cases hc : d.htmlClasses.contains cls = true
  · rw [if_pos hc, if_pos hc]; rfl
  · rw [if_neg hc, if_neg hc]
    exact find_setBodyClasses_isSome cls cs d.children b hb hcs

theorem ne_empty_of_length_pos (s : String) (h : 0 < s.length) : s ≠ "" := by
  intro hs
  rw [hs] at h
  exact absurd h (by decide)

theorem greetingText_ne_empty (lang period name : String) :
    greetingText lang period name ≠ "" := by
  have hp : 0 < (greetingPhrase lang period).length := by
    unfold greetingPhrase
    split_ifs <;> decide
  apply ne_empty_of_length_pos
  unfold greetingText
  split_ifs
  · exact hp
  · simp only [String.length_append]
    omega

theorem fullDateTime_ne_empty (params : Params) (now : Date) (r : DateTime)
    (h : getCurrentDateTime params now = .ok r) : r.fullDateTime ≠ "" := by
  apply ne_empty_of_length_pos
  unfold getCurrentDateTime at h
  simp only [] at h
  have hl : 0 < (" - " : String).length := by decide
  split at h
  · injection h with h; rw [← h]; simp only [String.length_append]; omega
  · injection h with h; rw [← h]; simp only [String.length_append]; omega
  · exact absurd h (by simp)

theorem textNodes_of_ne_empty (t : String) (h : t ≠ "") : textNodes t = .text t .nil := by
  unfold textNodes
  rw [if_neg h]

/-! ## Greeting -/

theorem validated_lang_lookup (ps : Params) (hv : validateParams ps = .ok ()) :
    (ps.lookup "lang").getD "en" = "en" ∨ (ps.lookup "lang").getD "en" = "pt" := by
  rcases validated_lang ps hv with h | h <;> rw [getParamValue_lang] at h <;>
    injection h with h <;> simp [h]

theorem getPeriodOfDay_cases (now : Date) :
    getPeriodOfDay now = "morning" ∨ getPeriodOfDay now = "afternoon" ∨
      getPeriodOfDay now = "evening" :=
  (getPeriodOfDay_iff now).2.2.2

theorem setGreetingMessage_present (s : State) (now : Date) (el : Element)
    (hv : validateParams s.params = .ok ())
    (hg : s.document.querySelector "greeting" = some el) :
    setGreetingMessage s now =
      .normal { s with
        document := s.document.replaceChildren "greeting"
          (.text (greetingText ((s.params.lookup "lang").getD "en") (getPeriodOfDay now)
            ((s.params.lookup "name").getD "")) .nil) } := by
  rw [← textNodes_of_ne_empty _ (greetingText_ne_empty _ _ _)]
  unfold setGreetingMessage
  rw [hg]
  simp only [getParamValue_name, getParamValue_lang, Value.toJSString, Value.truthy]
  rcases validated_lang_lookup s.params hv with hl | hl <;> rw [hl] <;>
    rcases getPeriodOfDay_cases now with hp | hp | hp <;> rw [hp] <;>
    by_cases hn : (s.params.lookup "name").getD "" = "" <;>
    simp [hn, getProp_translations_en, getProp_translations_pt, Translation.phrase,
      greetingText, greetingPhrase, textContentOf, Value.toJSString, CONFIG.en, CONFIG.pt]

/-- C7: on a validated mapping and with a greeting node on the page,
`setGreetingMessage` returns normally and replaces the children of that node by
one text node holding the phrase of the resolved language (`lang`, default
`en`) for the bucket of the clock reading, followed by a comma and the name
when the `name` parameter is present and not empty; nothing else changes, and
the greeting node then found is the same element with that text. -/
theorem setGreetingMessage_text (s : State) (now : Date) (el : Element)
    (hv : validateParams s.params = .ok ())
    (hg : s.document.querySelector "greeting" = some el) :
    setGreetingMessage s now =
      .normal { s with
        document := s.document.replaceChildren "greeting"
          (.text (greetingText ((s.params.lookup "lang").getD "en") (getPeriodOfDay now)
            ((s.params.lookup "name").getD "")) .nil) } ∧
    (s.document.replaceChildren "greeting"
        (.text (greetingText ((s.params.lookup "lang").getD "en") (getPeriodOfDay now)
          ((s.params.lookup "name").getD "")) .nil)).querySelector "greeting" =
      some { el with
        children := .text (greetingText ((s.params.lookup "lang").getD "en")
          (getPeriodOfDay now) ((s.params.lookup "name").getD "")) .nil } :=
  ⟨setGreetingMessage_present s now el hv hg, querySelector_replaceChildren _ _ _ el hg⟩

/-- Witness of C7 at the examples of the specification: `lang=pt`, a morning
hour and `name=Ana`; `lang=en`, no name and an evening hour. -/
theorem setGreetingMessage_text_witness :
    (validateParams [("lang", "pt"), ("name", "Ana")] = .ok () ∧
      ∃ s1,
        setGreetingMessage ⟨[("lang", "pt"), ("name", "Ana")], none, none, flatPage, [], []⟩
          ⟨0, 1, 0, 2024, 8, 0, 0⟩ = .normal s1 ∧
        s1.document.querySelector "greeting" =
          some ⟨"h1", ["greeting"], .text "Bom Dia, Ana" .nil⟩) ∧
    (validateParams [("lang", "en")] = .ok () ∧
      ∃ s1,
        setGreetingMessage ⟨[("lang", "en")], none, none, nestedPage, [], []⟩
          ⟨0, 1, 0, 2024, 21, 0, 0⟩ = .normal s1 ∧
        s1.document.querySelector "greeting" =
          some ⟨"h1", ["greeting"], .text "Good Evening" .nil⟩) := by
  refine ⟨⟨by rfl, ?_⟩, ⟨by rfl, ?_⟩⟩
  · have h := setGreetingMessage_text
      ⟨[("lang", "pt"), ("name", "Ana")], none, none, flatPage, [], []⟩
      ⟨0, 1, 0, 2024, 8, 0, 0⟩ ⟨"h1", ["greeting"], .text "Hi" .nil⟩ (by rfl) (by rfl)
    exact ⟨_, h.1, h.2.trans (by rfl)⟩
  · have h := setGreetingMessage_text
      ⟨[("lang", "en")], none, none, nestedPage, [], []⟩
      ⟨0, 1, 0, 2024, 21, 0, 0⟩ ⟨"h1", ["greeting"], .text "Hi" .nil⟩ (by rfl) (by rfl)
    exact ⟨_, h.1, h.2.trans (by rfl)⟩

/-! ## Mode -/

theorem validated_mode_lookup (ps : Params) (hv : validateParams ps = .ok ()) :
    (ps.lookup "mode").getD "dark" = "light" ∨ (ps.lookup "mode").getD "dark" = "dark" := by
  rcases validated_mode ps hv with h | h <;> rw [getParamValue_mode] at h <;>
    injection h with h <;> simp [h]

theorem mem_classListRemove (classes : List String) (c : String) :
    c ∈ classListRemove classes ["light", "dark"] ↔ c ∈ classes ∧ c ≠ "light" ∧ c ≠ "dark" := by
  simp [classListRemove]

theorem classListAdd_mode (classes : List String) (m : String)
    (hm : m = "light" ∨ m = "dark") :
    ∃ out, classListAdd classes m = .ok out ∧ (∀ c, c ∈ out ↔ c ∈ classes ∨ c = m) ∧
      (classes.Nodup → out.Nodup) := by
  have hok : ¬ (m = "" ∨ m.data.any isAsciiWhitespace = true) := by
    rcases hm with h | h <;> subst h <;> decide
  unfold classListAdd
  rw [if_neg hok]
  by_cases hc : classes.contains m = true
  · rw [if_pos hc]
    refine ⟨classes, rfl, ?_, fun h => h⟩
    intro c
    constructor
    · exact fun h => Or.inl h
    · rintro (h | h)
      · exact h
      · subst h; simpa using hc
  · rw [if_neg hc]
    refine ⟨classes ++ [m], rfl, ?_, ?_⟩
    · intro c; simp
    · intro hn
      have hnot : m ∉ classes := by simpa using hc
      rw [List.nodup_append]
      refine ⟨hn, List.nodup_singleton m, ?_⟩
      intro a ha hb
      simp at hb
      subst hb
      exact hnot ha

theorem setMode_valid (s : State) (b : Element) (hv : validateParams s.params = .ok ())
    (hb : s.document.body = some b) :
    ∃ classes,
      setMode s = .normal { s with document := s.document.setBodyClasses classes } ∧
      ((s.params.lookup "mode").getD "dark" = "light" ∨
        (s.params.lookup "mode").getD "dark" = "dark") ∧
      (∀ c, c ∈ classes ↔
        (c ∈ b.classes ∧ c ≠ "light" ∧ c ≠ "dark") ∨
          c = (s.params.lookup "mode").getD "dark") ∧
      (b.classes.Nodup → classes.Nodup) ∧
      (s.document.setBodyClasses classes).bodyClasses = some classes := by
  have hm := validated_mode_lookup s.params hv
  obtain ⟨out, hout, hmem, hnd⟩ :=
    classListAdd_mode (classListRemove b.classes ["light", "dark"]) _ hm
  refine ⟨out, ?_, hm, ?_, ?_, bodyClasses_setBodyClasses _ _ b hb⟩
  · unfold setMode
    rw [hb]
    simp only [getParamValue_mode, Value.toJSString, hout, document_setBodyClasses_twice]
  · intro c
    rw [hmem c, mem_classListRemove]
  · intro h
    exact hnd (List.Nodup.filter _ h)

theorem setMode_of_no_body (s : State) (hb : s.document.body = none) :
    setMode s = .throw .typeError s := by
  unfold setMode
  rw [hb]

/-- C8: on a validated mapping and a page with a body, `setMode` returns
normally and changes only the class tokens of the body: the resolved mode
(`mode`, default `dark`) is `light` or `dark`, and a class is on the body
afterwards exactly when it is the resolved mode or was there before and is
neither `light` nor `dark`; tokens without repetition stay so. -/
theorem setMode_classes (s : State) (b : Element) (hv : validateParams s.params = .ok ())
    (hb : s.document.body = some b) :
    ∃ classes,
      setMode s = .normal { s with document := s.document.setBodyClasses classes } ∧
      ((s.params.lookup "mode").getD "dark" = "light" ∨
        (s.params.lookup "mode").getD "dark" = "dark") ∧
      (∀ c, c ∈ classes ↔
        (c ∈ b.classes ∧ c ≠ "light" ∧ c ≠ "dark") ∨
          c = (s.params.lookup "mode").getD "dark") ∧
      (b.classes.Nodup → classes.Nodup) ∧
      (s.document.setBodyClasses classes).bodyClasses = some classes :=
  setMode_valid s b hv hb

/-- Witness of C8: with `mode=light` a body carrying `dark` and `wide` ends
with `wide` and `light`, and no `dark`. -/
theorem setMode_classes_witness :
    validateParams [("mode", "light")] = .ok () ∧
    ∃ s1 classes,
      setMode ⟨[("mode", "light")], none, none, clockOnlyPage, [], []⟩ = .normal s1 ∧
      s1.document.bodyClasses = some classes ∧
      "light" ∈ classes ∧ "dark" ∉ classes ∧ "wide" ∈ classes := by
  refine ⟨by rfl, ?_⟩
  obtain ⟨classes, h1, _, h3, _, h5⟩ :=
    setMode_classes ⟨[("mode", "light")], none, none, clockOnlyPage, [], []⟩
      ⟨"body", ["dark", "wide"], .element "h2" ["datetime"] (.text "now" .nil) .nil⟩
      (by rfl) (by rfl)
  refine ⟨_, classes, h1, h5, ?_, ?_, ?_⟩
  · exact (h3 "light").2 (Or.inr (by rfl))
  · intro h
    rcases (h3 "dark").1 h with ⟨_, _, h2⟩ | h2
    · exact h2 rfl
    · exact absurd h2 (by decide)
  · exact (h3 "wide").2 (Or.inl ⟨by decide, by decide, by decide⟩)

/-! ## Error presentation -/

theorem getProp_translations_other (l : String) (h1 : l ≠ "en") (h2 : l ≠ "pt") :
    getProp CONFIG.translations l =
      if l ∈ objectPrototypeKeys then .inherited l else .absent := by
  unfold getProp CONFIG.translations
  rw [lookup_cons_ne _ _ _ _ h1, lookup_cons_ne _ _ _ _ h2]
  rfl

theorem showError_message (l : Option String) :
    (match getProp CONFIG.translations (l.getD "en") with
      | .own t => if t.error ≠ "" then t.error else CONFIG.en.error
      | _ => CONFIG.en.error) = errorText l := by
  by_cases hpt : l.getD "en" = "pt"
  · have hl : l = some "pt" := by
      cases l with
      | none => exact absurd hpt (by decide)
      | some v => simpa using hpt
    rw [hpt, getProp_translations_pt, hl]
    rfl
  · have hl : l ≠ some "pt" := by
      intro h; rw [h] at hpt; exact hpt rfl
    have he : errorText l = CONFIG.en.error := by
      unfold errorText; rw [if_neg hl]; rfl
    rw [he]
    by_cases hen : l.getD "en" = "en"
    · rw [hen, getProp_translations_en]
      rfl
    · rw [getProp_translations_other _ hen hpt]
      split_ifs <;> rfl

theorem markupNodes_error (e : String) :
    markupNodes ("<h1 class=\"error\">" ++ e ++ "</h1>") =
      .markup ("<h1 class=\"error\">" ++ e ++ "</h1>") .nil := by
  have hne : "<h1 class=\"error\">" ++ e ++ "</h1>" ≠ "" := by
    apply ne_empty_of_length_pos
    have hl : 0 < ("</h1>" : String).length := by decide
    simp only [String.length_append]
    omega
  unfold markupNodes
  rw [if_neg hne]

theorem showError_eq (s : State) :
    (∀ el, s.document.querySelector "container" = some el →
      showError s = .normal { s with
        document := s.document.replaceChildren "container"
          (.markup ("<h1 class=\"error\">" ++ errorText (s.params.lookup "lang") ++ "</h1>")
            .nil) } ∧
      (s.document.replaceChildren "container"
          (.markup ("<h1 class=\"error\">" ++ errorText (s.params.lookup "lang") ++ "</h1>")
            .nil)).querySelector "container" =
        some { el with
          children :=
            .markup ("<h1 class=\"error\">" ++ errorText (s.params.lookup "lang") ++ "</h1>")
              .nil }) ∧
    (s.document.querySelector "container" = none →
      showError s =
        .normal { s with console := s.console ++ [.error "Container element not found"] }) := by
  constructor
  · intro el h
    refine ⟨?_, querySelector_replaceChildren _ _ _ el h⟩
    unfold showError
    rw [h]
    simp only [getParamValue_lang, Value.toJSString, showError_message, markupNodes_error]
  · intro h
    unfold showError
    rw [h]

/-- C10: on every mapping, with a container node on the page `showError`
returns normally and replaces the children of that node by the markup of the
`h1` element of class `error` holding the Portuguese error string when the
`lang` parameter is `pt` and the English one otherwise, touching nothing
outside that node; with no container node it returns normally, leaves the page
as it was and only logs. -/
theorem showError_renders (s : State) :
    (∀ el, s.document.querySelector "container" = some el →
      showError s = .normal { s with
        document := s.document.replaceChildren "container"
          (.markup ("<h1 class=\"error\">" ++ errorText (s.params.lookup "lang") ++ "</h1>")
            .nil) } ∧
      (s.document.replaceChildren "container"
          (.markup ("<h1 class=\"error\">" ++ errorText (s.params.lookup "lang") ++ "</h1>")
            .nil)).querySelector "container" =
        some { el with
          children :=
            .markup ("<h1 class=\"error\">" ++ errorText (s.params.lookup "lang") ++ "</h1>")
              .nil }) ∧
    (s.document.querySelector "container" = none →
      showError s =
        .normal { s with console := s.console ++ [.error "Container element not found"] }) :=
  showError_eq s

/-- Witness of C10: an invalid mapping with `lang=pt` and a container, a
mapping whose `lang` names no locale, and a page without container. -/
theorem showError_renders_witness :
    (∃ s1, showError ⟨[("lang", "pt"), ("foo", "x")], none, none, flatPage, [], []⟩ =
        .normal s1 ∧
      s1.document.querySelector "container" = some ⟨"div", ["container"],
        .markup "<h1 class=\"error\">Erro ao criar widget.<br/>Por favor, gere um novo link.</h1>"
          .nil⟩) ∧
    (∃ s1, showError ⟨[("lang", "toString")], none, none, flatPage, [], []⟩ = .normal s1 ∧
      s1.document.querySelector "container" = some ⟨"div", ["container"],
        .markup "<h1 class=\"error\">Error creating widget.<br/>Please generate a new link.</h1>"
          .nil⟩) ∧
    showError ⟨[("lang", "xx")], none, none, clockOnlyPage, [], []⟩ =
      .normal ⟨[("lang", "xx")], none, none, clockOnlyPage, [],
        [.error "Container element not found"]⟩ := by
  refine ⟨?_, ?_, ?_⟩
  · have h := (showError_renders
      ⟨[("lang", "pt"), ("foo", "x")], none, none, flatPage, [], []⟩).1
      ⟨"div", ["container"], .text "old" .nil⟩ (by rfl)
    exact ⟨_, h.1, h.2.trans (by rfl)⟩
  · have h := (showError_renders
      ⟨[("lang", "toString")], none, none, flatPage, [], []⟩).1
      ⟨"div", ["container"], .text "old" .nil⟩ (by rfl)
    exact ⟨_, h.1, h.2.trans (by rfl)⟩
  · exact ((showError_renders _).2 (by rfl)).trans (by rfl)

/-! ## Initialization -/

theorem htmlClasses_replaceChildren (d : Document) (cls : String) (c : Forest) :
    (d.replaceChildren cls c).htmlClasses = d.htmlClasses := by
  unfold Document.replaceChildren
  split_ifs
  · rfl
  · cases Forest.replaceIn cls c d.children <;> rfl

theorem showError_frame (s : State) :
    ∃ s1, showError s = .normal s1 ∧ s1.params = s.params ∧
      s1.clockInterval = s.clockInterval ∧ s1.greetingInterval = s.greetingInterval ∧
      s1.timers = s.timers ∧
      s1.document = s.document.replaceChildren "container"
        (.markup ("<h1 class=\"error\">" ++ errorText (s.params.lookup "lang") ++ "</h1>")
          .nil) := by
  cases h : s.document.querySelector "container" with
  | none =>
    exact ⟨_, (showError_eq s).2 h, rfl, rfl, rfl, rfl,
      (replaceChildren_of_none _ _ _ h).symm⟩
  | some el => exact ⟨_, ((showError_eq s).1 el h).1, rfl, rfl, rfl, rfl, rfl⟩

theorem setGreetingMessage_valid (s : State) (now : Date)
    (hv : validateParams s.params = .ok ()) :
    ∃ s1, setGreetingMessage s now = .normal s1 ∧ s1.params = s.params ∧
      s1.clockInterval = s.clockInterval ∧ s1.greetingInterval = s.greetingInterval ∧
      s1.timers = s.timers ∧
      s1.document = s.document.replaceChildren "greeting"
        (.text (greetingText ((s.params.lookup "lang").getD "en") (getPeriodOfDay now)
          ((s.params.lookup "name").getD "")) .nil) := by
  cases h : s.document.querySelector "greeting" with
  | none =>
    refine ⟨{ s with console := s.console ++ [.warn "Greeting element not found"] }, ?_,
      rfl, rfl, rfl, rfl, (replaceChildren_of_none _ _ _ h).symm⟩
    unfold setGreetingMessage; rw [h]
  | some el =>
    exact ⟨_, setGreetingMessage_present s now el hv h, rfl, rfl, rfl, rfl, rfl⟩

theorem updateDateTime_valid (s : State) (now : Date)
    (hv : validateParams s.params = .ok ()) :
    ∃ s1 r, getCurrentDateTime s.params now = .ok r ∧
      updateDateTime s now = .normal s1 ∧ s1.params = s.params ∧
      s1.clockInterval = s.clockInterval ∧ s1.greetingInterval = s.greetingInterval ∧
      s1.timers = s.timers ∧
      s1.document = s.document.replaceChildren "datetime" (.text r.fullDateTime .nil) := by
  obtain ⟨r, hr⟩ := getCurrentDateTime_ok_of_valid s.params now hv
  have hne := textNodes_of_ne_empty _ (fullDateTime_ne_empty s.params now r hr)
  cases h : s.document.querySelector "datetime" with
  | none =>
    refine ⟨{ s with console := s.console ++ [.warn "DateTime element not found"] }, r, hr, ?_,
      rfl, rfl, rfl, rfl, (replaceChildren_of_none _ _ _ h).symm⟩
    unfold updateDateTime; rw [h]
  | some el =>
    refine ⟨{ s with
      document := s.document.replaceChildren "datetime" (.text r.fullDateTime .nil) }, r, hr,
      ?_, rfl, rfl, rfl, rfl, rfl⟩
    unfold updateDateTime; rw [h]; simp only [hr, hne]

theorem startGreetingMessage_valid (s : State) (now : Date)
    (hv : validateParams s.params = .ok ()) :
    ∃ s1, startGreetingMessage s now = .normal s1 ∧ s1.params = s.params ∧
      s1.clockInterval = s.clockInterval ∧
      s1.greetingInterval = some (s.timers.length + 1) ∧
      s1.timers = s.timers ++ [(.setGreetingMessage, 3600000)] ∧
      s1.document = s.document.replaceChildren "greeting"
        (.text (greetingText ((s.params.lookup "lang").getD "en") (getPeriodOfDay now)
          ((s.params.lookup "name").getD "")) .nil) := by
  obtain ⟨s0, h0, hp, hci, _, ht, hd⟩ := setGreetingMessage_valid s now hv
  refine ⟨{ s0 with timers := s0.timers ++ [(.setGreetingMessage, 1000 * 60 * 60)],
                    greetingInterval := some (s0.timers.length + 1) }, ?_, hp, hci,
    ?_, ?_, hd⟩
  · unfold startGreetingMessage
    rw [h0]
    rfl
  · simp [ht]
  · simp [ht]

theorem startClock_valid (s : State) (now : Date)
    (hv : validateParams s.params = .ok ()) :
    ∃ s1 r, getCurrentDateTime s.params now = .ok r ∧
      startClock s now = .normal s1 ∧ s1.params = s.params ∧
      s1.clockInterval = some (s.timers.length + 1) ∧
      s1.greetingInterval = s.greetingInterval ∧
      s1.timers = s.timers ++ [(.updateDateTime, 1000)] ∧
      s1.document = s.document.replaceChildren "datetime" (.text r.fullDateTime .nil) := by
  obtain ⟨s0, r, hr, h0, hp, _, hgi, ht, hd⟩ := updateDateTime_valid s now hv
  refine ⟨{ s0 with timers := s0.timers ++ [(.updateDateTime, 1000)],
                    clockInterval := some (s0.timers.length + 1) }, r, hr, ?_, hp,
    ?_, hgi, ?_, hd⟩
  · unfold startClock
    rw [h0]
    rfl
  · simp [ht]
  · simp [ht]

theorem init_of_invalid (s : State) (tGreeting tClock : Date) (e : Thrown)
    (he : validateParams s.params = .error e) :
    init s tGreeting tClock =
      showError { s with console := s.console ++ [.initFailed e] } := by
  unfold init
  rw [he]
  rfl

theorem init_running (s sa : State) (tGreeting tClock : Date) (b : Element)
    (hv : validateParams s.params = .ok ())
    (ha : startGreetingMessage s tGreeting = .normal sa) (hpa : sa.params = s.params)
    (hb : sa.document.body = some b) :
    ∃ s1 r classes, init s tGreeting tClock = .normal s1 ∧
      getCurrentDateTime s.params tClock = .ok r ∧
      s1.timers = sa.timers ++ [(.updateDateTime, 1000)] ∧
      s1.greetingInterval = sa.greetingInterval ∧
      s1.clockInterval = some (sa.timers.length + 1) ∧
      (∀ c, c ∈ classes ↔
        (c ∈ b.classes ∧ c ≠ "light" ∧ c ≠ "dark") ∨
          c = (s.params.lookup "mode").getD "dark") ∧
      ((s.params.lookup "mode").getD "dark" = "light" ∨
        (s.params.lookup "mode").getD "dark" = "dark") ∧
      s1.document = (sa.document.setBodyClasses classes).replaceChildren "datetime"
        (.text r.fullDateTime .nil) ∧
      (sa.document.setBodyClasses classes).bodyClasses = some classes := by
  have hva : validateParams sa.params = .ok () := by rw [hpa]; exact hv
  obtain ⟨classes, hm, hmode, hmem, _, hbc⟩ := setMode_valid sa b hva hb
  have hvb : validateParams
      ({ sa with document := sa.document.setBodyClasses classes } : State).params = .ok () := hva
  obtain ⟨sc, r, hr, hc, _, hci, hgi, ht, hd⟩ :=
    startClock_valid { sa with document := sa.document.setBodyClasses classes } tClock hvb
  refine ⟨sc, r, classes, ?_, ?_, ht, hgi, hci, ?_, ?_, hd, hbc⟩
  · unfold init
    rw [hv]
    simp only [applySettings, ha, hm, hc]
  · rw [← hpa]; exact hr
  · intro c; rw [hmem c, hpa]
  · rw [← hpa]; exact hmode

theorem init_no_body (s sa : State) (tGreeting tClock : Date)
    (hv : validateParams s.params = .ok ())
    (ha : startGreetingMessage s tGreeting = .normal sa) (hb : sa.document.body = none) :
    init s tGreeting tClock =
      showError { sa with console := sa.console ++ [.initFailed .typeError] } := by
  unfold init
  rw [hv]
  simp only [applySettings, ha, setMode_of_no_body sa hb]
  rfl

theorem contains_datetime_eq (old classes : List String) (mode : String)
    (hmode : mode = "light" ∨ mode = "dark")
    (hmem : ∀ c, c ∈ classes ↔ (c ∈ old ∧ c ≠ "light" ∧ c ≠ "dark") ∨ c = mode) :
    old.contains "datetime" = classes.contains "datetime" := by
  have h := hmem "datetime"
  have hne : ¬ ("datetime" = mode) := by
    rcases hmode with h1 | h1 <;> rw [h1] <;> decide
  have e1 : old.contains "datetime" = true ↔ "datetime" ∈ old := by simp
  have e2 : classes.contains "datetime" = true ↔ "datetime" ∈ classes := by simp
  rw [Bool.eq_iff_iff, e1, e2, h]
  constructor
  · intro h1; exact Or.inl ⟨h1, by decide, by decide⟩
  · rintro (⟨h1, _, _⟩ | h1)
    · exact h1
    · exact absurd h1 hne

theorem init_failed (s : State) (tGreeting tClock : Date) (e : Thrown)
    (he : validateParams s.params = .error e) :
    init s tGreeting tClock = showError { s with console := s.console ++ [.initFailed e] } ∧
    ∃ s1, init s tGreeting tClock = .normal s1 ∧
      s1.clockInterval = s.clockInterval ∧ s1.greetingInterval = s.greetingInterval ∧
      s1.timers = s.timers ∧
      s1.document = s.document.replaceChildren "container"
        (.markup ("<h1 class=\"error\">" ++ errorText (s.params.lookup "lang") ++ "</h1>")
          .nil) ∧
      (s.document.htmlClasses.contains "container" = false →
        s1.document.bodyClasses = s.document.bodyClasses) := by
  have h0 := init_of_invalid s tGreeting tClock e he
  obtain ⟨s1, h1, _, hci, hgi, ht, hd⟩ :=
    showError_frame { s with console := s.console ++ [.initFailed e] }
  refine ⟨h0, s1, h0.trans h1, hci, hgi, ht, hd, ?_⟩
  intro hc
  rw [hd]
  exact bodyClasses_replaceChildren s.document "container" _ hc

theorem init_valid (s : State) (tGreeting tClock : Date)
    (hv : validateParams s.params = .ok ()) :
    ∃ sa, startGreetingMessage s tGreeting = .normal sa ∧
      sa.document = s.document.replaceChildren "greeting"
        (.text (greetingText ((s.params.lookup "lang").getD "en") (getPeriodOfDay tGreeting)
          ((s.params.lookup "name").getD "")) .nil) ∧
      (∀ b, sa.document.body = some b →
        ∃ s1 r classes, init s tGreeting tClock = .normal s1 ∧
          getCurrentDateTime s.params tClock = .ok r ∧
          s1.timers = s.timers ++ [(.setGreetingMessage, 3600000), (.updateDateTime, 1000)] ∧
          s1.greetingInterval = some (s.timers.length + 1) ∧
          s1.clockInterval = some (s.timers.length + 2) ∧
          (∀ c, c ∈ classes ↔
            (c ∈ b.classes ∧ c ≠ "light" ∧ c ≠ "dark") ∨
              c = (s.params.lookup "mode").getD "dark") ∧
          s1.document = (sa.document.setBodyClasses classes).replaceChildren "datetime"
            (.text r.fullDateTime .nil) ∧
          (∀ el, (sa.document.setBodyClasses classes).querySelector "datetime" = some el →
            s1.document.querySelector "datetime" =
              some { el with children := .text r.fullDateTime .nil }) ∧
          (s.document.htmlClasses.contains "datetime" = false →
            s1.document.bodyClasses = some classes)) ∧
      (sa.document.body = none →
        init s tGreeting tClock =
          showError { sa with console := sa.console ++ [.initFailed .typeError] } ∧
        ∃ s1, init s tGreeting tClock = .normal s1 ∧
          s1.timers = s.timers ++ [(.setGreetingMessage, 3600000)] ∧
          s1.greetingInterval = some (s.timers.length + 1) ∧
          s1.clockInterval = s.clockInterval) := by
  obtain ⟨sa, ha, hpa, hcia, hgia, hta, hda⟩ := startGreetingMessage_valid s tGreeting hv
  refine ⟨sa, ha, hda, ?_, ?_⟩
  · intro b hb
    obtain ⟨s1, r, classes, h1, hr, ht, hgi, hci, hmem, _, hd, hbc⟩ :=
      init_running s sa tGreeting tClock b hv ha hpa hb
    refine ⟨s1, r, classes, h1, hr, ?_, ?_, ?_, hmem, hd, ?_, ?_⟩
    · rw [ht, hta]; simp
    · rw [hgi, hgia]
    · rw [hci, hta]; simp
    · intro el hel
      rw [hd]
      exact querySelector_replaceChildren _ _ _ el hel
    · intro hc
      rw [hd, bodyClasses_replaceChildren _ "datetime" _ ?_, hbc]
      show (sa.document.setBodyClasses classes).htmlClasses.contains "datetime" = false
      have : (sa.document.setBodyClasses classes).htmlClasses = s.document.htmlClasses := by
        show sa.document.htmlClasses = s.document.htmlClasses
        rw [hda, htmlClasses_replaceChildren]
      rw [this]; exact hc
  · intro hb
    have h0 := init_no_body s sa tGreeting tClock hv ha hb
    obtain ⟨s1, h1, _, hci, hgi, ht, _⟩ :=
      showError_frame { sa with console := sa.console ++ [.initFailed .typeError] }
    refine ⟨h0, s1, h0.trans h1, ?_, ?_, ?_⟩
    · rw [ht]; exact hta
    · rw [hgi]; exact hgia
    · rw [hci]; exact hcia

theorem init_without_greeting (s : State) (tGreeting tClock : Date) (b el : Element)
    (hv : validateParams s.params = .ok ())
    (hg : s.document.querySelector "greeting" = none)
    (hb : s.document.body = some b) (hd : s.document.querySelector "datetime" = some el) :
    ∃ s1 r el2, init s tGreeting tClock = .normal s1 ∧
      getCurrentDateTime s.params tClock = .ok r ∧
      s1.greetingInterval = some (s.timers.length + 1) ∧
      s1.clockInterval = some (s.timers.length + 2) ∧
      s1.document.querySelector "datetime" = some el2 ∧
      el2.children = .text r.fullDateTime .nil := by
  obtain ⟨sa, ha, hpa, _, hgia, hta, hda⟩ := startGreetingMessage_valid s tGreeting hv
  rw [replaceChildren_of_none _ _ _ hg] at hda
  have hba : sa.document.body = some b := by rw [hda]; exact hb
  obtain ⟨s1, r, classes, h1, hr, _, hgi, hci, hmem, hmode, hd1, _⟩ :=
    init_running s sa tGreeting tClock b hv ha hpa hba
  have hsome : ((sa.document.setBodyClasses classes).querySelector "datetime").isSome = true := by
    rw [querySelector_setBodyClasses_isSome sa.document "datetime" classes b hba
      (contains_datetime_eq b.classes classes _ hmode hmem), hda, hd]
    rfl
  obtain ⟨el1, hel1⟩ := Option.isSome_iff_exists.1 hsome
  refine ⟨s1, r, { el1 with children := .text r.fullDateTime .nil }, h1, hr, ?_, ?_, ?_, rfl⟩
  · rw [hgi, hgia]
  · rw [hci, hta]; simp
  · rw [hd1]
    exact querySelector_replaceChildren _ _ _ el1 hel1

theorem init_normal (s : State) (tGreeting tClock : Date) :
    ∃ s1, init s tGreeting tClock = .normal s1 := by
  cases hv : validateParams s.params with
  | error e =>
    obtain ⟨_, s1, h1, _⟩ := init_failed s tGreeting tClock e hv
    exact ⟨s1, h1⟩
  | ok u =>
    obtain ⟨sa, _, _, hrun, hnb⟩ := init_valid s tGreeting tClock hv
    cases hb : sa.document.body with
    | some b =>
      obtain ⟨s1, _, _, h1, _⟩ := hrun b hb
      exact ⟨s1, h1⟩
    | none =>
      obtain ⟨_, s1, h1, _⟩ := hnb hb
      exact ⟨s1, h1⟩

/-- C9, refuted as stated.  On a page whose container holds the greeting and
the clock node, a failed validation ends with both nodes removed from the page
(the error markup replaced them), so they are not left as they were; and on a
page without body a valid mapping does not reach the running state: the
`TypeError` of `setMode` is caught, the clock timer is never started and the
greeting timer stays registered. -/
theorem init_claim_refuted :
    (validateParams [("foo", "x")] = .error (.error "Invalid parameter: foo") ∧
      nestedPage.querySelector "greeting" = some ⟨"h1", ["greeting"], .text "Hi" .nil⟩ ∧
      nestedPage.querySelector "datetime" = some ⟨"h2", ["datetime"], .text "now" .nil⟩ ∧
      ∃ s1,
        init ⟨[("foo", "x")], none, none, nestedPage, [], []⟩
          ⟨0, 1, 0, 2024, 8, 0, 0⟩ ⟨3, 4, 10, 2026, 8, 0, 1⟩ = .normal s1 ∧
        s1.document.querySelector "greeting" = none ∧
        s1.document.querySelector "datetime" = none) ∧
    (validateParams [] = .ok () ∧
      ∃ s1,
        init ⟨[], none, none, headOnlyPage, [], []⟩
          ⟨0, 1, 0, 2024, 8, 0, 0⟩ ⟨3, 4, 10, 2026, 8, 0, 1⟩ = .normal s1 ∧
        s1.clockInterval = none ∧ s1.greetingInterval = some 1 ∧
        s1.timers = [(.setGreetingMessage, 3600000)] ∧
        s1.console = [.warn "Greeting element not found", .initFailed .typeError,
          .error "Container element not found"]) := by
  refine ⟨⟨by rfl, by rfl, by rfl, ?_⟩, ⟨by rfl, ?_⟩⟩
  · exact ⟨_, by rfl, by rfl, by rfl⟩
  · exact ⟨_, by rfl, by rfl, by rfl, by rfl, by rfl⟩

/-- C9, amended.  `init` always returns normally.  When `validateParams`
throws, the result is that of `showError` on the start state with the failure
logged: interval handles and timers are those of the start, and the page
differs from the start page only in the children of the container node, if
any, which are replaced by the error markup, so greeting and clock nodes inside
the container go with them and the body keeps its classes unless the `html`
element is the container.  When `validateParams` succeeds, the greeting step
runs first (the greeting node, if any, gets the greeting; the hourly timer is
registered).  If the page then has a body, `init` ends running: the one-second
timer is registered, both handles are stored, the body classes become the old
ones without `light` and `dark` plus the resolved mode, and the clock node
found at that point gets the first render.  If the page then has no body, the
`TypeError` of `setMode` is caught and `init` is `showError` on the state after
the greeting step.  In particular, on a page with a body and a clock node but
no greeting node a valid mapping ends running with the first render in the
clock node. -/
theorem init_outcome (s : State) (tGreeting tClock : Date) :
    (∃ s1, init s tGreeting tClock = .normal s1) ∧
    (∀ e, validateParams s.params = .error e →
      init s tGreeting tClock = showError { s with console := s.console ++ [.initFailed e] } ∧
      ∃ s1, init s tGreeting tClock = .normal s1 ∧
        s1.clockInterval = s.clockInterval ∧ s1.greetingInterval = s.greetingInterval ∧
        s1.timers = s.timers ∧
        s1.document = s.document.replaceChildren "container"
          (.markup ("<h1 class=\"error\">" ++ errorText (s.params.lookup "lang") ++ "</h1>")
            .nil) ∧
        (s.document.htmlClasses.contains "container" = false →
          s1.document.bodyClasses = s.document.bodyClasses)) ∧
    (validateParams s.params = .ok () →
      ∃ sa, startGreetingMessage s tGreeting = .normal sa ∧
        sa.document = s.document.replaceChildren "greeting"
          (.text (greetingText ((s.params.lookup "lang").getD "en") (getPeriodOfDay tGreeting)
            ((s.params.lookup "name").getD "")) .nil) ∧
        (∀ b, sa.document.body = some b →
          ∃ s1 r classes, init s tGreeting tClock = .normal s1 ∧
            getCurrentDateTime s.params tClock = .ok r ∧
            s1.timers =
              s.timers ++ [(.setGreetingMessage, 3600000), (.updateDateTime, 1000)] ∧
            s1.greetingInterval = some (s.timers.length + 1) ∧
            s1.clockInterval = some (s.timers.length + 2) ∧
            (∀ c, c ∈ classes ↔
              (c ∈ b.classes ∧ c ≠ "light" ∧ c ≠ "dark") ∨
                c = (s.params.lookup "mode").getD "dark") ∧
            s1.document = (sa.document.setBodyClasses classes).replaceChildren "datetime"
              (.text r.fullDateTime .nil) ∧
            (∀ el, (sa.document.setBodyClasses classes).querySelector "datetime" = some el →
              s1.document.querySelector "datetime" =
                some { el with children := .text r.fullDateTime .nil }) ∧
            (s.document.htmlClasses.contains "datetime" = false →
              s1.document.bodyClasses = some classes)) ∧
        (sa.document.body = none →
          init s tGreeting tClock =
            showError { sa with console := sa.console ++ [.initFailed .typeError] } ∧
          ∃ s1, init s tGreeting tClock = .normal s1 ∧
            s1.timers = s.timers ++ [(.setGreetingMessage, 3600000)] ∧
            s1.greetingInterval = some (s.timers.length + 1) ∧
            s1.clockInterval = s.clockInterval)) ∧
    (validateParams s.params = .ok () → s.document.querySelector "greeting" = none →
      ∀ b el, s.document.body = some b → s.document.querySelector "datetime" = some el →
        ∃ s1 r el2, init s tGreeting tClock = .normal s1 ∧
          getCurrentDateTime s.params tClock = .ok r ∧
          s1.greetingInterval = some (s.timers.length + 1) ∧
          s1.clockInterval = some (s.timers.length + 2) ∧
          s1.document.querySelector "datetime" = some el2 ∧
          el2.children = .text r.fullDateTime .nil) :=
  ⟨init_normal s tGreeting tClock,
    fun e he => init_failed s tGreeting tClock e he,
    fun hv => init_valid s tGreeting tClock hv,
    fun hv hg b el hb hd => init_without_greeting s tGreeting tClock b el hv hg hb hd⟩

/-- Witness of the amended C9: an unknown key on a page whose greeting and
clock node lie outside the container leaves both nodes and the body classes
and rewrites the container; a valid mapping on a page without greeting node
ends running with the first render in the clock node. -/
theorem init_outcome_witness :
    (validateParams [("foo", "x")] = .error (.error "Invalid parameter: foo") ∧
      ∃ s1,
        init ⟨[("foo", "x")], none, none, flatPage, [], []⟩
          ⟨0, 1, 0, 2024, 8, 0, 0⟩ ⟨3, 4, 10, 2026, 8, 0, 1⟩ = .normal s1 ∧
        s1.clockInterval = none ∧ s1.greetingInterval = none ∧ s1.timers = [] ∧
        s1.document.bodyClasses = some ["dark"] ∧
        s1.document.querySelector "greeting" = some ⟨"h1", ["greeting"], .text "Hi" .nil⟩ ∧
        s1.document.querySelector "datetime" = some ⟨"h2", ["datetime"], .text "now" .nil⟩ ∧
        s1.document.querySelector "container" = some ⟨"div", ["container"],
          .markup "<h1 class=\"error\">Error creating widget.<br/>Please generate a new link.</h1>"
            .nil⟩) ∧
    (validateParams [("mode", "light")] = .ok () ∧
      ∃ s1 el2,
        init ⟨[("mode", "light")], none, none, clockOnlyPage, [], []⟩
          ⟨0, 1, 0, 2024, 8, 0, 0⟩ ⟨3, 4, 10, 2026, 8, 0, 1⟩ = .normal s1 ∧
        s1.greetingInterval = some 1 ∧ s1.clockInterval = some 2 ∧
        s1.document.querySelector "datetime" = some el2 ∧
        el2.children = .text "Wednesday, 4 November 2026 - 08:00:01" .nil) := by
  refine ⟨⟨by rfl, ?_⟩, ⟨by rfl, ?_⟩⟩
  · obtain ⟨_, s1, h1, hci, hgi, ht, hd, hb⟩ :=
      (init_outcome ⟨[("foo", "x")], none, none, flatPage, [], []⟩
        ⟨0, 1, 0, 2024, 8, 0, 0⟩ ⟨3, 4, 10, 2026, 8, 0, 1⟩).2.1
        (.error "Invalid parameter: foo") (by rfl)
    refine ⟨s1, h1, hci, hgi, ht, (hb (by rfl)).trans (by rfl), ?_, ?_, ?_⟩
    · rw [hd]; rfl
    · rw [hd]; rfl
    · rw [hd]; rfl
  · obtain ⟨s1, r, el2, h1, hr, hgi, hci, hq, hch⟩ :=
      (init_outcome ⟨[("mode", "light")], none, none, clockOnlyPage, [], []⟩
        ⟨0, 1, 0, 2024, 8, 0, 0⟩ ⟨3, 4, 10, 2026, 8, 0, 1⟩).2.2.2 (by rfl) (by rfl)
        ⟨"body", ["dark", "wide"], .element "h2" ["datetime"] (.text "now" .nil) .nil⟩
        ⟨"h2", ["datetime"], .text "now" .nil⟩ (by rfl) (by rfl)
    have hr2 : getCurrentDateTime [("mode", "light")] ⟨3, 4, 10, 2026, 8, 0, 1⟩ =
        .ok ⟨"Wednesday, 4 November 2026", "08:00:01",
          "Wednesday, 4 November 2026 - 08:00:01"⟩ := by rfl
    have hre : r = ⟨"Wednesday, 4 November 2026", "08:00:01",
        "Wednesday, 4 November 2026 - 08:00:01"⟩ := by
      have h2 := hr.symm.trans hr2
      injection h2
    refine ⟨s1, el2, h1, hgi, hci, hq, ?_⟩
    rw [hch, hre]
